import Mathlib

/-!
Verification of the WebsiteHealthCheckPanel repository: a shallow embedding of
the data model, frontend stores, SSE client, and (where the backend engine code
is absent) spec-modelled engine operations, with theorems settling the frozen
claims about the system.
-/

namespace HealthCheck

/-! ## Frontend type definitions (frontend/src/lib/types.ts) -/

/-- CheckStatus from types.ts: 'success' | 'failure' | 'warning'. -/
inductive CheckStatus where
  | success
  | failure
  | warning
deriving DecidableEq, Repr

/-- The string literal of each CheckStatus value in types.ts. -/
def CheckStatus.wireName : CheckStatus → String
  | CheckStatus.success => "success"
  | CheckStatus.failure => "failure"
  | CheckStatus.warning => "warning"

/-- IncidentStatus from types.ts: 'open' | 'acknowledged' | 'resolved'. -/
inductive IncidentStatus where
  | «open»
  | acknowledged
  | resolved
deriving DecidableEq, Repr

/-- CheckResult from types.ts (payload fields as opaque-but-concrete Lean data;
numbers as Int, timestamps as Nat, JSON payloads as strings). -/
structure CheckResult where
  id : Nat
  check_configuration_id : Nat
  status : CheckStatus
  response_time_ms : Option Int
  error_message : Option String
  result_data : String
  checked_at : Nat
deriving DecidableEq, Repr

/-- Incident from types.ts. -/
structure Incident where
  id : Nat
  check_configuration_id : Nat
  status : IncidentStatus
  title : String
  description : Option String
  started_at : Nat
  acknowledged_at : Option Nat
  resolved_at : Option Nat
  failure_count : Nat
deriving DecidableEq, Repr

/-- NotificationLog from types.ts. -/
structure NotificationLog where
  id : Nat
  rule_id : Nat
  check_result_id : Option Nat
  incident_id : Option Nat
  error_message : Option String
  sent_at : Nat
deriving DecidableEq, Repr

/-! ## Zustand stores (frontend store source, appended to backend/ARCHITECTURE.md)

The checks store keeps `results : Map<number, CheckResult[]>`; a JavaScript
`Map` with the `get(k) || []` access pattern is embedded as a total function
from check ids to lists with default `[]`. -/

/-- State of useChecksStore relevant to results bookkeeping. -/
structure ChecksStore where
  results : Nat → List CheckResult

/-- addResult from the checks store:
`newResults.set(checkId, [result, ...existing].slice(0, 100))` where
`existing = newResults.get(checkId) || []`; all other keys keep their lists. -/
def ChecksStore.addResult (s : ChecksStore) (checkId : Nat) (result : CheckResult) :
    ChecksStore :=
  { results := fun k =>
      if k = checkId then (result :: s.results checkId).take 100 else s.results k }

/-- setResults from the checks store: `newResults.set(checkId, results)`. -/
def ChecksStore.setResults (s : ChecksStore) (checkId : Nat) (rs : List CheckResult) :
    ChecksStore :=
  { results := fun k => if k = checkId then rs else s.results k }

/-- State of useIncidentsStore: the incidents list and the derived
openIncidents list. -/
structure IncidentsStore where
  incidents : List Incident
  openIncidents : List Incident
deriving DecidableEq, Repr

/-- Predicate used by the incidents store: `i.status === 'open'`. -/
def isOpenStatus (i : Incident) : Bool := i.status = IncidentStatus.«open»

/-- setIncidents from the incidents store: replaces the list and recomputes
`openIncidents = incidents.filter((i) => i.status === 'open')`. -/
def IncidentsStore.setIncidents (_s : IncidentsStore) (incidents : List Incident) :
    IncidentsStore :=
  { incidents := incidents
    openIncidents := incidents.filter isOpenStatus }

/-- addIncident from the incidents store: appends
(`[...state.incidents, incident]`) and recomputes openIncidents. -/
def IncidentsStore.addIncident (s : IncidentsStore) (incident : Incident) :
    IncidentsStore :=
  let incidents := s.incidents ++ [incident]
  { incidents := incidents
    openIncidents := incidents.filter isOpenStatus }

/-- updateIncident from the incidents store: replaces the incident with the
matching id (`incidents.map((i) => i.id === incident.id ? incident : i)`) and
recomputes openIncidents. -/
def IncidentsStore.updateIncident (s : IncidentsStore) (incident : Incident) :
    IncidentsStore :=
  let incidents := s.incidents.map fun i => if i.id = incident.id then incident else i
  { incidents := incidents
    openIncidents := incidents.filter isOpenStatus }

/-- An incidents-store operation, for quantifying over all three mutators. -/
inductive IncidentsStoreOp where
  | set (incidents : List Incident)
  | add (incident : Incident)
  | update (incident : Incident)
deriving DecidableEq, Repr

/-- Apply one incidents-store operation. -/
def IncidentsStore.apply (s : IncidentsStore) : IncidentsStoreOp → IncidentsStore
  | .set incidents => s.setIncidents incidents
  | .add incident => s.addIncident incident
  | .update incident => s.updateIncident incident

/-! ## useSSE reconnection state machine (frontend/src/lib/useSSE.ts)

The hook's mutable refs and state are embedded as a record; the EventSource
onopen / onerror callbacks and the disconnect function are its transitions.
A pending `setTimeout` is represented by the delay it was armed with. -/

/-- `maxReconnectAttempts` constant of useSSE. -/
def maxReconnectAttempts : Nat := 5

/-- `baseReconnectDelay` constant of useSSE, in milliseconds. -/
def baseReconnectDelay : Nat := 1000

/-- Reconnection-relevant state of the useSSE hook. -/
structure SSEState where
  isConnected : Bool
  reconnectAttempts : Nat
  reconnectTimeout : Option Nat
  hasEventSource : Bool
deriving DecidableEq, Repr

/-- State of the hook after mount, before any connection callback fired:
`isConnected = false`, `reconnectAttemptsRef.current = 0`, no pending timer. -/
def initialSSEState : SSEState :=
  { isConnected := false
    reconnectAttempts := 0
    reconnectTimeout := none
    hasEventSource := true }

/-- The onOpen callback: `setIsConnected(true); setError(null);
reconnectAttemptsRef.current = 0`. -/
def handleOpen (s : SSEState) : SSEState :=
  { s with isConnected := true, reconnectAttempts := 0 }

/-- The onError callback: `setIsConnected(false)`, then, when
`reconnectAttemptsRef.current < maxReconnectAttempts`, arm a timer with delay
`baseReconnectDelay * Math.pow(2, reconnectAttemptsRef.current)` and increment
the attempt counter; otherwise no timer is armed. -/
def handleError (s : SSEState) : SSEState :=
  if s.reconnectAttempts < maxReconnectAttempts then
    { s with
      isConnected := false
      reconnectTimeout := some (baseReconnectDelay * 2 ^ s.reconnectAttempts)
      reconnectAttempts := s.reconnectAttempts + 1 }
  else
    { s with isConnected := false }

/-- The disconnect function: clears any pending reconnect timer
(`clearTimeout`, ref set to null), closes and clears the EventSource, and sets
`isConnected` to false. -/
def disconnect (s : SSEState) : SSEState :=
  { s with
    reconnectTimeout := none
    hasEventSource := false
    isConnected := false }

/-- The hook state after n consecutive onError callbacks from the initial
state, with no intervening open. -/
def afterErrors : Nat → SSEState
  | 0 => initialSSEState
  | n + 1 => handleError (afterErrors n)

/-! ## SSE event stream client (connectToEventStream in lib/api.ts)

types.ts declares `SSEEventType` as exactly four string literals;
connectToEventStream registers one `addEventListener` per name, each parsing
`event.data` with `JSON.parse` and invoking the corresponding callback. An
EventSource delivers a named event only to a listener registered under that
exact name, so an incoming event whose name is not one of the four invokes no
callback. -/

/-- SSEEventType from types.ts. -/
inductive SSEEventType where
  | check_result
  | incident_opened
  | incident_resolved
  | notification_sent
deriving DecidableEq, Repr

/-- The wire name of each SSE event type. -/
def SSEEventType.wireName : SSEEventType → String
  | .check_result => "check_result"
  | .incident_opened => "incident_opened"
  | .incident_resolved => "incident_resolved"
  | .notification_sent => "notification_sent"

/-- The four event names for which connectToEventStream registers listeners. -/
def sseEventNames : List String :=
  ["check_result", "incident_opened", "incident_resolved", "notification_sent"]

/-- Which callback of the SSECallbacks record fired, and with what parsed
payload. The payload type is abstract: `JSON.parse` is passed in as a
function, mirroring that every listener body is `JSON.parse(event.data)`
followed by the callback call. -/
inductive FiredCallback (α : Type) where
  | onCheckResult (data : α)
  | onIncidentOpened (data : α)
  | onIncidentResolved (data : α)
  | onNotificationSent (data : α)
deriving DecidableEq, Repr

/-- Dispatch of one incoming named SSE event by the listeners that
connectToEventStream registered: the four registered names each parse the
event's JSON payload and invoke their callback; any other name matches no
listener and nothing fires. -/
def dispatchStreamEvent {α : Type} (parseJson : String → α)
    (name : String) (data : String) : Option (FiredCallback α) :=
  if name = "check_result" then
    some (.onCheckResult (parseJson data))
  else if name = "incident_opened" then
    some (.onIncidentOpened (parseJson data))
  else if name = "incident_resolved" then
    some (.onIncidentResolved (parseJson data))
  else if name = "notification_sent" then
    some (.onNotificationSent (parseJson data))
  else
    none

/-! ## Database schema (the Supabase SQL schema file)

Enum value sets and the delete-cascade semantics of the foreign keys on
check_results and incidents. -/

/-- Values of the SQL enum `check_status`. -/
def sqlCheckStatusValues : List String := ["success", "failure", "warning"]

/-- Values of the SQL enum `incident_status`. -/
def sqlIncidentStatusValues : List String := ["open", "acknowledged", "resolved"]

/-- The string literals admitted by `CheckStatus` in frontend/src/lib/types.ts. -/
def typesCheckStatusValues : List String := ["success", "failure", "warning"]

/-- The string literals admitted by the `status` field of `CheckResult` in the
alternative frontend types file (src/unnamed/part_009): 'success' | 'failure'. -/
def part009CheckResultStatusValues : List String := ["success", "failure"]

/-- Row of the check_configurations table. -/
structure CheckConfigurationRow where
  id : Nat
  site_id : Nat
  check_type : String
  name : String
  interval_seconds : Nat
  is_enabled : Bool
deriving DecidableEq, Repr

/-- Row of the check_results table. -/
structure CheckResultRow where
  id : Nat
  check_configuration_id : Nat
  status : CheckStatus
  response_time_ms : Option Int
  error_message : Option String
  checked_at : Nat
deriving DecidableEq, Repr

/-- Row of the incidents table. -/
structure IncidentRow where
  id : Nat
  check_configuration_id : Nat
  status : IncidentStatus
  started_at : Nat
  resolved_at : Option Nat
  failure_count : Nat
deriving DecidableEq, Repr

/-- The three engine tables of the schema. -/
structure HealthCheckDb where
  check_configurations : List CheckConfigurationRow
  check_results : List CheckResultRow
  incidents : List IncidentRow
deriving DecidableEq, Repr

/-- `DELETE FROM check_configurations WHERE id = cfgId` under the schema's
foreign keys: check_results and incidents both reference
check_configurations(id) with ON DELETE CASCADE, so their rows referencing the
deleted configuration are deleted with it. -/
def deleteCheckConfiguration (cfgId : Nat) (db : HealthCheckDb) : HealthCheckDb :=
  { check_configurations := db.check_configurations.filter fun c => c.id ≠ cfgId
    check_results := db.check_results.filter fun r => r.check_configuration_id ≠ cfgId
    incidents := db.incidents.filter fun i => i.check_configuration_id ≠ cfgId }

/-- Disabling a configuration (`is_enabled = false` via the update endpoint):
only the check_configurations row changes; results and incidents are not
touched. -/
def disableCheckConfiguration (cfgId : Nat) (db : HealthCheckDb) : HealthCheckDb :=
  { db with
    check_configurations := db.check_configurations.map fun c =>
      if c.id = cfgId then { c with is_enabled := false } else c }

/-! ## Form modals and defaults (CheckFormModal.tsx, RuleFormModal.tsx, schema) -/

/-- The interval values offered by the CheckFormModal interval select
(options 60, 300, 600, 1800, 3600 seconds). -/
def checkFormIntervalOptions : List Nat := [60, 300, 600, 1800, 3600]

/-- DEFAULT of check_configurations.interval_seconds in the SQL schema. -/
def checkConfigurationsIntervalDefault : Nat := 300

/-- DEFAULT of notification_rules.consecutive_failures in the SQL schema. -/
def notificationRulesConsecutiveFailuresDefault : Nat := 1

/-- Value of the maximal decimal-digit prefix. -/
def digitsVal (ds : List Char) : Nat :=
  ds.foldl (fun acc c => 10 * acc + (c.toNat - 48)) 0

/-- Parse an unsigned decimal prefix as JavaScript parseInt does: the maximal
leading digit run; NaN (none) if there is no leading digit. -/
def parseDigitsPrefix (cs : List Char) : Option Nat :=
  let ds := cs.takeWhile Char.isDigit
  if ds.isEmpty then none else some (digitsVal ds)

/-- JavaScript parseInt on a decimal string (as produced by a number input):
skip leading spaces, optional sign, then the maximal digit prefix; NaN (none)
when no digits follow. -/
def jsParseInt (s : String) : Option Int :=
  match s.data.dropWhile (· = ' ') with
  | '-' :: rest => (parseDigitsPrefix rest).map fun n => -(n : Int)
  | '+' :: rest => (parseDigitsPrefix rest).map fun n => (n : Int)
  | cs => (parseDigitsPrefix cs).map fun n => (n : Int)

/-- JavaScript `x || 1` on a number-or-NaN/undefined: NaN, undefined and 0 are
falsy and yield 1. -/
def jsOrOneInt : Option Int → Int
  | none => 1
  | some n => if n = 0 then 1 else n

/-- RuleFormModal onChange for the Consecutive Failures Required input:
`setConsecutiveFailures(parseInt(e.target.value) || 1)`. -/
def setConsecutiveFailuresInput (v : String) : Int :=
  jsOrOneInt (jsParseInt v)

/-- RuleFormModal initial state for consecutiveFailures:
`rule?.consecutive_failures || 1` (1 when no rule is being edited). -/
def initialConsecutiveFailures (ruleValue : Option Int) : Int :=
  jsOrOneInt ruleValue

/-- Native constraint validation of the Consecutive Failures Required number
input, from its attributes `min={1} max={10}`: the browser blocks form
submission unless the value is within the range. -/
def consecutiveFailuresFieldValid (v : Int) : Bool :=
  1 ≤ v && v ≤ 10

/-- Modelled from the spec: the backend engine's validation of
CheckConfiguration interval bounds at create/update ("interval (seconds,
minimum enforced, e.g. >=30s)"; "engine owns validation of interval bounds").
The backend engine code (backend/app/domains/checks) is not under src. -/
def validateIntervalSeconds (interval : Nat) : Bool :=
  30 ≤ interval

/-- Modelled from the spec: the backend's minimum for the consecutive_failures
threshold ("configured per notification rule / per check, minimum 1"). The
backend notification-rule validation code is not under src. -/
def validateConsecutiveFailures (n : Int) : Bool :=
  1 ≤ n

/-! ## Incident state machine (modelled from the spec)

The backend incident state machine (backend/app/domains/checks service and
tasks) is not under src; only its schema, API client and documentation are.
The transition rule is modelled from the spec: on failure increment the
consecutive-failure counter, create an open incident when the threshold is
reached and no unresolved incident exists, otherwise update the existing
unresolved incident's failure count; on success resolve the unresolved
incident (acknowledged included) and reset the counter; warnings are neutral.
Acknowledge and manual resolve are the externally triggered operations. -/

/-- Modelled from the spec: one incident record of the engine's incident
state machine. -/
structure EngineIncident where
  status : IncidentStatus
  started_at : Nat
  acknowledged_at : Option Nat
  resolved_at : Option Nat
  failure_count : Nat
deriving DecidableEq, Repr

/-- An incident is unresolved when its status is open or acknowledged. -/
def EngineIncident.unresolved (i : EngineIncident) : Bool :=
  i.status ≠ IncidentStatus.resolved

/-- Modelled from the spec: per-configuration state of the incident state
machine — the transient consecutive-failure counter and the incident history
for that configuration (most recent first). -/
structure ConfigIncidentState where
  counter : Nat
  incidents : List EngineIncident
deriving DecidableEq, Repr

/-- State with no results processed yet: zero counter, no incidents. -/
def initialIncidentState : ConfigIncidentState :=
  { counter := 0, incidents := [] }

/-- Modelled from the spec: the failure branch of the transition rule. -/
def processFailure (threshold now : Nat) (s : ConfigIncidentState) :
    ConfigIncidentState :=
  let c := s.counter + 1
  if s.incidents.any EngineIncident.unresolved then
    { counter := c
      incidents := s.incidents.map fun i =>
        if i.unresolved then { i with failure_count := c } else i }
  else if threshold ≤ c then
    { counter := c
      incidents :=
        { status := IncidentStatus.«open», started_at := now,
          acknowledged_at := none, resolved_at := none,
          failure_count := c } :: s.incidents }
  else
    { s with counter := c }

/-- Modelled from the spec: the success branch — any unresolved incident
(acknowledged included) becomes resolved, and the counter resets to zero. -/
def processSuccess (now : Nat) (s : ConfigIncidentState) : ConfigIncidentState :=
  { counter := 0
    incidents := s.incidents.map fun i =>
      if i.unresolved then
        { i with status := IncidentStatus.resolved, resolved_at := some now }
      else i }

/-- Modelled from the spec: the transition rule on one new CheckResult;
warning is neutral. -/
def processResult (threshold now : Nat) (st : CheckStatus)
    (s : ConfigIncidentState) : ConfigIncidentState :=
  match st with
  | CheckStatus.failure => processFailure threshold now s
  | CheckStatus.success => processSuccess now s
  | CheckStatus.warning => s

/-- Modelled from the spec: the operator acknowledge action — the open
incident becomes acknowledged. -/
def acknowledgeIncidentOp (now : Nat) (s : ConfigIncidentState) :
    ConfigIncidentState :=
  { s with incidents := s.incidents.map fun i =>
      if i.status = IncidentStatus.«open» then
        { i with status := IncidentStatus.acknowledged,
                 acknowledged_at := some now }
      else i }

/-- Modelled from the spec: the manual resolve action of the incidents API —
any unresolved incident becomes resolved. -/
def resolveIncidentOp (now : Nat) (s : ConfigIncidentState) :
    ConfigIncidentState :=
  { s with incidents := s.incidents.map fun i =>
      if i.unresolved then
        { i with status := IncidentStatus.resolved, resolved_at := some now }
      else i }

/-- An operation of the incident subsystem for one configuration. -/
inductive IncidentOp where
  | result (threshold now : Nat) (status : CheckStatus)
  | acknowledge (now : Nat)
  | resolveManually (now : Nat)
deriving DecidableEq, Repr

/-- Apply one incident operation. -/
def applyIncidentOp (s : ConfigIncidentState) : IncidentOp → ConfigIncidentState
  | IncidentOp.result threshold now st => processResult threshold now st s
  | IncidentOp.acknowledge now => acknowledgeIncidentOp now s
  | IncidentOp.resolveManually now => resolveIncidentOp now s

/-- Run a sequence of incident operations from the initial state. -/
def runIncidentOps (ops : List IncidentOp) : ConfigIncidentState :=
  ops.foldl applyIncidentOp initialIncidentState

/-- The claimed invariant: at most one unresolved incident per
configuration. -/
def atMostOneUnresolved (s : ConfigIncidentState) : Prop :=
  s.incidents.countP EngineIncident.unresolved ≤ 1

/-! ## Scheduler (modelled from the spec)

The scheduler (APScheduler-based SchedulerService) is not under src; only its
documentation and HTTP callers are. Modelled from the spec: a ScheduleEntry
per configuration with a monotonically increasing execution token; a due tick
or a runNow request atomically claims the entry by compare-and-increment only
when no execution for that configuration is active, so a runNow while one is
active coalesces to a no-op. -/

/-- Modelled from the spec: one ScheduleEntry — configuration id, execution
token, next-fire time. -/
structure ScheduleEntry where
  configId : Nat
  token : Nat
  nextFire : Nat
deriving DecidableEq, Repr

/-- Modelled from the spec: scheduler state — schedule entries plus the set of
claimed in-flight executions, each tagged (configuration id, token). -/
structure SchedulerState where
  entries : List ScheduleEntry
  active : List (Nat × Nat)
deriving DecidableEq, Repr

/-- Whether an execution for the configuration is currently in flight. -/
def SchedulerState.hasActive (s : SchedulerState) (cfg : Nat) : Bool :=
  s.active.any fun e => e.1 == cfg

/-- Modelled from the spec: the atomic claim — if an execution for the
configuration is already active, do nothing (coalesce); otherwise increment
the entry's token and record the new execution as active. A configuration
without a schedule entry is not claimable. -/
def claimExecution (cfg : Nat) (s : SchedulerState) : SchedulerState :=
  if s.hasActive cfg then s
  else
    match s.entries.find? (fun e => e.configId == cfg) with
    | none => s
    | some e =>
      { entries := s.entries.map fun e2 =>
          if e2.configId == cfg then { e2 with token := e2.token + 1 } else e2
        active := (cfg, e.token + 1) :: s.active }

/-- Modelled from the spec: one tick considers a configuration due when its
entry's next-fire time has been reached, then claims it. -/
def tickClaim (now cfg : Nat) (s : SchedulerState) : SchedulerState :=
  match s.entries.find? (fun e => e.configId == cfg) with
  | some e => if e.nextFire ≤ now then claimExecution cfg s else s
  | none => s

/-- Modelled from the spec: runNow bypasses the cadence but goes through the
same claim discipline. -/
def runNow (cfg : Nat) (s : SchedulerState) : SchedulerState :=
  claimExecution cfg s

/-- Modelled from the spec: completion of an execution removes it from the
active set and recomputes the entry's next fire as now + interval. -/
def completeExecution (cfg token now interval : Nat) (s : SchedulerState) :
    SchedulerState :=
  { entries := s.entries.map fun e =>
      if e.configId == cfg then { e with nextFire := now + interval } else e
    active := s.active.filter fun e => e ≠ (cfg, token) }

/-- Modelled from the spec: upsert on create/update of an enabled
configuration — the entry is created or its next-fire recomputed; in-flight
executions are untouched. -/
def upsertEntry (cfg now : Nat) (s : SchedulerState) : SchedulerState :=
  if s.entries.any (fun e => e.configId == cfg) then
    { s with entries := s.entries.map fun e =>
        if e.configId == cfg then { e with nextFire := now } else e }
  else
    { s with entries := { configId := cfg, token := 0, nextFire := now } :: s.entries }

/-- Modelled from the spec: remove on disable/delete — pending scheduling is
cancelled; an in-flight execution is allowed to complete. -/
def removeEntry (cfg : Nat) (s : SchedulerState) : SchedulerState :=
  { s with entries := s.entries.filter fun e => ¬ (e.configId == cfg) }

/-- A scheduler operation (the atomic steps whose interleavings model
concurrent ticks, manual triggers and completions). -/
inductive SchedulerOp where
  | tick (now cfg : Nat)
  | manualRun (cfg : Nat)
  | complete (cfg token now interval : Nat)
  | upsert (cfg now : Nat)
  | remove (cfg : Nat)
deriving DecidableEq, Repr

/-- Apply one scheduler operation. -/
def applySchedulerOp (s : SchedulerState) : SchedulerOp → SchedulerState
  | SchedulerOp.tick now cfg => tickClaim now cfg s
  | SchedulerOp.manualRun cfg => runNow cfg s
  | SchedulerOp.complete cfg token now interval =>
      completeExecution cfg token now interval s
  | SchedulerOp.upsert cfg now => upsertEntry cfg now s
  | SchedulerOp.remove cfg => removeEntry cfg s

/-- The empty scheduler state at process start. -/
def initialSchedulerState : SchedulerState :=
  { entries := [], active := [] }

/-- Run a sequence of scheduler operations from the initial state. -/
def runSchedulerOps (ops : List SchedulerOp) : SchedulerState :=
  ops.foldl applySchedulerOp initialSchedulerState

/-- The claimed guarantee: at most one in-flight execution per
configuration. -/
def atMostOneInFlight (s : SchedulerState) : Prop :=
  ∀ cfg : Nat, s.active.countP (fun e => e.1 == cfg) ≤ 1

/-! ## Helper lemmas -/

/-- countP is unchanged by a map that does not change the predicate's value. -/
theorem countP_map_invar {α : Type} (f : α → α) (p : α → Bool)
    (h : ∀ a, p (f a) = p a) (l : List α) :
    (l.map f).countP p = l.countP p := by
  induction l with
  | nil => rfl
  | cons a l ih => simp [List.countP_cons, h, ih]

/-- countP is zero when any is false. -/
theorem countP_eq_zero_of_any_false {α : Type} (p : α → Bool) (l : List α)
    (h : l.any p = false) : l.countP p = 0 := by
  induction l with
  | nil => rfl
  | cons a l ih =>
    simp only [List.any_cons, Bool.or_eq_false_iff] at h
    simp [List.countP_cons, h.1, ih h.2]

/-- countP is zero when the predicate is false on every member. -/
theorem countP_eq_zero_of_all_false {α : Type} (p : α → Bool) (l : List α)
    (h : ∀ a ∈ l, p a = false) : l.countP p = 0 := by
  induction l with
  | nil => rfl
  | cons a l ih =>
    simp [List.countP_cons, h a (List.mem_cons_self a l),
      ih fun b hb => h b (List.mem_cons_of_mem a hb)]

/-! ## Theorems for the claims -/

/-- Claim C9: for every state of the checks store, addResult(checkId, r) makes
the results list under checkId equal to r prepended to the previous list and
truncated to at most 100 entries, and leaves the list under every other check
id unchanged. -/
theorem claim_C9_addResult_prepend_truncate_frame
    (s : ChecksStore) (checkId : Nat) (r : CheckResult) :
    (s.addResult checkId r).results checkId = (r :: s.results checkId).take 100 ∧
    ((s.addResult checkId r).results checkId).length ≤ 100 ∧
    ∀ k : Nat, k ≠ checkId → (s.addResult checkId r).results k = s.results k := by
  refine ⟨by simp [ChecksStore.addResult], ?_, ?_⟩
  · simp only [ChecksStore.addResult, if_pos rfl]
    simp [Nat.min_le_left]
  · intro k hk
    simp [ChecksStore.addResult, hk]

/-- A sample check result used to instantiate witnesses. -/
def sampleCheckResult : CheckResult :=
  { id := 1, check_configuration_id := 1, status := CheckStatus.success,
    response_time_ms := some 120, error_message := none,
    result_data := "{}", checked_at := 0 }

/-- The checks store with no results loaded. -/
def emptyChecksStore : ChecksStore := { results := fun _ => [] }

/-- Witness for claim C9 at a concrete store, key and result. -/
theorem claim_C9_witness :
    (emptyChecksStore.addResult 1 sampleCheckResult).results 2 =
      emptyChecksStore.results 2 :=
  (claim_C9_addResult_prepend_truncate_frame emptyChecksStore 1
    sampleCheckResult).2.2 2 (by decide)

/-- The pairing the incidents store maintains: openIncidents is exactly the
filter of incidents by status 'open'. -/
def incidentsStoreConsistent (s : IncidentsStore) : Prop :=
  s.openIncidents = s.incidents.filter isOpenStatus

/-- Claim C10: after any of the three incidents-store operations, openIncidents
equals exactly the open-status subset of incidents, and no incident whose
status is acknowledged or resolved appears in openIncidents. -/
theorem claim_C10_openIncidents_filter_invariant
    (s : IncidentsStore) (op : IncidentsStoreOp) :
    incidentsStoreConsistent (s.apply op) ∧
    ∀ i ∈ (s.apply op).openIncidents, i.status = IncidentStatus.«open» := by
  have hfilter : ∀ (l : List Incident) (i : Incident),
      i ∈ l.filter isOpenStatus → i.status = IncidentStatus.«open» := by
    intro l i hi
    have := (List.mem_filter.mp hi).2
    simpa [isOpenStatus] using this
  cases op with
  | set incidents =>
    exact ⟨rfl, fun i hi => hfilter _ i hi⟩
  | add incident =>
    exact ⟨rfl, fun i hi => hfilter _ i hi⟩
  | update incident =>
    exact ⟨rfl, fun i hi => hfilter _ i hi⟩

/-- A sample open incident used to instantiate witnesses. -/
def sampleOpenIncident : Incident :=
  { id := 7, check_configuration_id := 1, status := IncidentStatus.«open»,
    title := "HTTP check failing", description := none, started_at := 0,
    acknowledged_at := none, resolved_at := none, failure_count := 3 }

/-- The incidents store before any data is loaded. -/
def emptyIncidentsStore : IncidentsStore := { incidents := [], openIncidents := [] }

/-- Witness for claim C10 at a concrete store, operation and member. -/
theorem claim_C10_witness :
    sampleOpenIncident.status = IncidentStatus.«open» :=
  (claim_C10_openIncidents_filter_invariant emptyIncidentsStore
    (IncidentsStoreOp.add sampleOpenIncident)).2 sampleOpenIncident (by decide)

/-- Claim C8: the useSSE hook schedules at most maxReconnectAttempts = 5
consecutive reconnection attempts; the delay armed before the (n+1)-th attempt
is baseReconnectDelay * 2 ^ n = 1000 * 2 ^ n milliseconds for n = 0..4; once
five attempts are used up a further error arms no new timer; a successful open
resets the attempt counter to zero; disconnect clears any pending timer. -/
theorem claim_C8_reconnect_backoff :
    (∀ n : Nat, n < maxReconnectAttempts →
      (afterErrors (n + 1)).reconnectTimeout = some (baseReconnectDelay * 2 ^ n)) ∧
    (∀ n : Nat, (afterErrors n).reconnectAttempts = min n maxReconnectAttempts) ∧
    (∀ s : SSEState, maxReconnectAttempts ≤ s.reconnectAttempts →
      (handleError s).reconnectTimeout = s.reconnectTimeout) ∧
    (∀ s : SSEState, (handleOpen s).reconnectAttempts = 0) ∧
    (∀ s : SSEState, (disconnect s).reconnectTimeout = none) := by
  have hmin : ∀ n : Nat, (afterErrors n).reconnectAttempts = min n maxReconnectAttempts := by
    intro n
    induction n with
    | zero => rfl
    | succ n ih =>
      show (handleError (afterErrors n)).reconnectAttempts = _
      unfold handleError
      split
      · next hlt =>
        simp only [ih] at hlt ⊢
        simp only [maxReconnectAttempts] at hlt ⊢
        omega
      · next hge =>
        simp only [ih] at hge ⊢
        simp only [maxReconnectAttempts] at hge ⊢
        omega
  refine ⟨?_, hmin, ?_, fun s => rfl, fun s => rfl⟩
  · intro n hn
    show (handleError (afterErrors n)).reconnectTimeout = _
    unfold handleError
    have hatt : (afterErrors n).reconnectAttempts = n := by
      have := hmin n
      simp only [maxReconnectAttempts] at hn this
      omega
    split
    · simp [hatt]
    · next hge =>
      exact absurd (by simpa [hatt] using hn) hge
  · intro s hs
    unfold handleError
    split
    · next hlt => omega
    · rfl

/-- Witness for claim C8 at concrete inputs: the first retry delay is 1000 ms,
and a state that has exhausted its five attempts arms no new timer. -/
theorem claim_C8_witness :
    (afterErrors 1).reconnectTimeout = some 1000 ∧
    (handleError (SSEState.mk false 5 none true)).reconnectTimeout =
      (none : Option Nat) :=
  ⟨claim_C8_reconnect_backoff.1 0 (by decide),
   claim_C8_reconnect_backoff.2.2.1 _ (by decide)⟩

/-- Claim C2: the stream interface's event types are exactly the four named
ones (SSEEventType wire names enumerate sseEventNames), and the client
subscription dispatches a callback for an incoming named event if and only if
the event's name is one of the four, each matching listener passing the
JSON-parsed payload to its callback. -/
theorem claim_C2_stream_event_dispatch {α : Type} (parseJson : String → α)
    (name data : String) :
    ((SSEEventType.check_result ::
        SSEEventType.incident_opened ::
        SSEEventType.incident_resolved ::
        [SSEEventType.notification_sent]).map SSEEventType.wireName
      = sseEventNames) ∧
    ((dispatchStreamEvent parseJson name data).isSome ↔ name ∈ sseEventNames) ∧
    dispatchStreamEvent parseJson "check_result" data =
      some (FiredCallback.onCheckResult (parseJson data)) ∧
    dispatchStreamEvent parseJson "incident_opened" data =
      some (FiredCallback.onIncidentOpened (parseJson data)) ∧
    dispatchStreamEvent parseJson "incident_resolved" data =
      some (FiredCallback.onIncidentResolved (parseJson data)) ∧
    dispatchStreamEvent parseJson "notification_sent" data =
      some (FiredCallback.onNotificationSent (parseJson data)) := by
  refine ⟨rfl, ?_, ?_, ?_, ?_, ?_⟩
  · unfold dispatchStreamEvent
    split_ifs with h1 h2 h3 h4 <;> simp_all [sseEventNames]
  all_goals simp [dispatchStreamEvent]

/-- Claim C5, counterexample: the claim asserts every representation of a
CheckResult status admits exactly success, failure and warning; the
alternative frontend types file (src/unnamed/part_009) omits 'warning' from
its CheckResult status, so the representations do not all agree. -/
theorem claim_C5_counterexample :
    "warning" ∈ sqlCheckStatusValues ∧
    "warning" ∉ part009CheckResultStatusValues ∧
    part009CheckResultStatusValues ≠ sqlCheckStatusValues := by
  decide

/-- Claim C5 as amended: the database enum check_status and the CheckStatus
type of frontend/src/lib/types.ts agree on exactly
\x7bsuccess, failure, warning\x7d; the CheckResult status of the alternative
types file under src/unnamed/part_009 admits only a strict subset of those
values, lacking 'warning'. -/
theorem claim_C5_amended_status_sets :
    sqlCheckStatusValues = ["success", "failure", "warning"] ∧
    typesCheckStatusValues = sqlCheckStatusValues ∧
    ((CheckStatus.success :: CheckStatus.failure :: [CheckStatus.warning]).map
        CheckStatus.wireName = typesCheckStatusValues) ∧
    (∀ v ∈ part009CheckResultStatusValues, v ∈ sqlCheckStatusValues) ∧
    "warning" ∉ part009CheckResultStatusValues := by
  decide

/-- Witness for the amended claim C5 at a concrete status value. -/
theorem claim_C5_witness :
    "success" ∈ sqlCheckStatusValues :=
  claim_C5_amended_status_sets.2.2.2.1 "success" (by decide)

/-- Claim C7: deleting a check configuration cascades — no check result or
incident referencing it survives, while rows referencing other configurations
survive; disabling a configuration leaves the check_results and incidents
tables exactly as they were. -/
theorem claim_C7_delete_cascades_disable_preserves
    (db : HealthCheckDb) (cfgId : Nat) :
    (∀ r ∈ (deleteCheckConfiguration cfgId db).check_results,
      r.check_configuration_id ≠ cfgId) ∧
    (∀ i ∈ (deleteCheckConfiguration cfgId db).incidents,
      i.check_configuration_id ≠ cfgId) ∧
    (∀ r ∈ db.check_results, r.check_configuration_id ≠ cfgId →
      r ∈ (deleteCheckConfiguration cfgId db).check_results) ∧
    (∀ i ∈ db.incidents, i.check_configuration_id ≠ cfgId →
      i ∈ (deleteCheckConfiguration cfgId db).incidents) ∧
    (disableCheckConfiguration cfgId db).check_results = db.check_results ∧
    (disableCheckConfiguration cfgId db).incidents = db.incidents := by
  refine ⟨?_, ?_, ?_, ?_, rfl, rfl⟩
  · intro r hr
    have := (List.mem_filter.mp hr).2
    simpa using this
  · intro i hi
    have := (List.mem_filter.mp hi).2
    simpa using this
  · intro r hr hne
    exact List.mem_filter.mpr ⟨hr, by simpa using hne⟩
  · intro i hi hne
    exact List.mem_filter.mpr ⟨hi, by simpa using hne⟩

/-- A sample database with one configuration, one result and one incident for
a different configuration id. -/
def sampleDb : HealthCheckDb :=
  { check_configurations :=
      [{ id := 1, site_id := 1, check_type := "http", name := "home",
         interval_seconds := 60, is_enabled := true }]
    check_results :=
      [{ id := 10, check_configuration_id := 2, status := CheckStatus.success,
         response_time_ms := some 80, error_message := none, checked_at := 5 }]
    incidents :=
      [{ id := 20, check_configuration_id := 2, status := IncidentStatus.resolved,
         started_at := 1, resolved_at := some 4, failure_count := 3 }] }

/-- Witness for claim C7 at the sample database: the result row referencing
configuration 2 survives the deletion of configuration 1. -/
theorem claim_C7_witness :
    { id := 10, check_configuration_id := 2, status := CheckStatus.success,
      response_time_ms := some 80, error_message := none,
      checked_at := 5 : CheckResultRow } ∈
      (deleteCheckConfiguration 1 sampleDb).check_results :=
  (claim_C7_delete_cascades_disable_preserves sampleDb 1).2.2.1 _
    (by decide) (by decide)

/-- Claim C4: every interval the check form offers is at least 30 seconds (the
smallest option is 60), the schema default is at least 30 seconds, and the
spec-modelled engine validation accepts an interval exactly when it is at
least 30 seconds, so every accepted configuration has interval_seconds >= 30. -/
theorem claim_C4_interval_minimum :
    (∀ v ∈ checkFormIntervalOptions, 30 ≤ v) ∧
    30 ≤ checkConfigurationsIntervalDefault ∧
    (∀ n : Nat, validateIntervalSeconds n = true ↔ 30 ≤ n) := by
  refine ⟨by decide, by decide, ?_⟩
  intro n
  simp [validateIntervalSeconds]

/-- Witness for claim C4 at the concrete interval 60. -/
theorem claim_C4_witness :
    30 ≤ (60 : Nat) ∧ validateIntervalSeconds 60 = true :=
  ⟨claim_C4_interval_minimum.1 60 (by decide),
   (claim_C4_interval_minimum.2.2 60).mpr (by decide)⟩

/-- Claim C6: the rule form's consecutive-failures field falls back to 1 when
the input does not parse as a number and when no rule value is present; the
schema default is 1; the field's min/max constraint admits only values at
least 1; and the spec-modelled backend minimum accepts exactly values at
least 1. -/
theorem claim_C6_consecutive_failures_minimum :
    (∀ s : String, jsParseInt s = none → setConsecutiveFailuresInput s = 1) ∧
    initialConsecutiveFailures none = 1 ∧
    notificationRulesConsecutiveFailuresDefault = 1 ∧
    (∀ v : Int, consecutiveFailuresFieldValid v = true → 1 ≤ v) ∧
    (∀ n : Int, validateConsecutiveFailures n = true ↔ 1 ≤ n) := by
  refine ⟨?_, rfl, rfl, ?_, ?_⟩
  · intro s h
    simp [setConsecutiveFailuresInput, h, jsOrOneInt]
  · intro v h
    simp only [consecutiveFailuresFieldValid, Bool.and_eq_true,
      decide_eq_true_eq] at h
    exact h.1
  · intro n
    simp [validateConsecutiveFailures]

/-- Witness for claim C6 at concrete inputs: a non-numeric input string falls
back to 1, and the in-range value 3 passes the field constraint. -/
theorem claim_C6_witness :
    setConsecutiveFailuresInput "abc" = 1 ∧ (1 : Int) ≤ 3 :=
  ⟨claim_C6_consecutive_failures_minimum.1 "abc" (by decide),
   claim_C6_consecutive_failures_minimum.2.2.2.1 3 (by decide)⟩

/-- Updating only the failure count keeps resolvedness unchanged. -/
theorem unresolved_after_failure_count_update (c : Nat) (a : EngineIncident) :
    EngineIncident.unresolved
      (if a.unresolved then { a with failure_count := c } else a) =
    EngineIncident.unresolved a := by
  by_cases h : a.status = IncidentStatus.resolved <;>
    simp [EngineIncident.unresolved, h]

/-- After the success/resolve mapping, no incident is unresolved. -/
theorem resolve_map_countP_zero (now : Nat) (l : List EngineIncident) :
    (l.map fun i =>
      if i.unresolved then
        { i with status := IncidentStatus.resolved, resolved_at := some now }
      else i).countP EngineIncident.unresolved = 0 := by
  apply countP_eq_zero_of_all_false
  intro a ha
  rcases List.mem_map.mp ha with ⟨b, _, rfl⟩
  by_cases hb : b.status = IncidentStatus.resolved <;>
    simp [EngineIncident.unresolved, hb]

/-- The failure branch preserves the at-most-one-unresolved invariant. -/
theorem processFailure_preserves (threshold now : Nat)
    (s : ConfigIncidentState) (h : atMostOneUnresolved s) :
    atMostOneUnresolved (processFailure threshold now s) := by
  unfold atMostOneUnresolved processFailure
  by_cases hany : s.incidents.any EngineIncident.unresolved
  · simp only [hany, if_pos]
    rw [countP_map_invar _ _ (unresolved_after_failure_count_update _)]
    exact h
  · have h0 : s.incidents.countP EngineIncident.unresolved = 0 :=
      countP_eq_zero_of_any_false _ _ (by simpa using hany)
    by_cases hth : threshold ≤ s.counter + 1
    · simp [hany, hth, List.countP_cons, h0, EngineIncident.unresolved]
    · simp [hany, hth, h0]

/-- The success branch preserves the at-most-one-unresolved invariant. -/
theorem processSuccess_preserves (now : Nat) (s : ConfigIncidentState) :
    atMostOneUnresolved (processSuccess now s) :=
  le_trans (le_of_eq (resolve_map_countP_zero now s.incidents)) (Nat.zero_le 1)

/-- Acknowledging keeps resolvedness of each incident unchanged, so the
invariant is preserved. -/
theorem acknowledge_preserves (now : Nat) (s : ConfigIncidentState)
    (h : atMostOneUnresolved s) :
    atMostOneUnresolved (acknowledgeIncidentOp now s) := by
  unfold atMostOneUnresolved acknowledgeIncidentOp
  rw [countP_map_invar]
  · exact h
  · intro a
    by_cases ha : a.status = IncidentStatus.«open» <;>
      simp [ha, EngineIncident.unresolved]

/-- Manual resolve preserves the invariant (it leaves nothing unresolved). -/
theorem resolveOp_preserves (now : Nat) (s : ConfigIncidentState) :
    atMostOneUnresolved (resolveIncidentOp now s) :=
  le_trans (le_of_eq (resolve_map_countP_zero now s.incidents)) (Nat.zero_le 1)

/-- Claim C1: the initial incident state satisfies the at-most-one-unresolved
invariant, every incident operation (result processing, acknowledge, manual
resolve) preserves it, and hence every reachable state — the result of any
operation sequence from the initial state — satisfies it. -/
theorem claim_C1_at_most_one_unresolved :
    atMostOneUnresolved initialIncidentState ∧
    (∀ (s : ConfigIncidentState) (op : IncidentOp),
      atMostOneUnresolved s → atMostOneUnresolved (applyIncidentOp s op)) ∧
    (∀ ops : List IncidentOp, atMostOneUnresolved (runIncidentOps ops)) := by
  have hstep : ∀ (s : ConfigIncidentState) (op : IncidentOp),
      atMostOneUnresolved s → atMostOneUnresolved (applyIncidentOp s op) := by
    intro s op h
    cases op with
    | result threshold now st =>
      cases st with
      | failure => exact processFailure_preserves threshold now s h
      | success => exact processSuccess_preserves now s
      | warning => exact h
    | acknowledge now => exact acknowledge_preserves now s h
    | resolveManually now => exact resolveOp_preserves now s
  have hinit : atMostOneUnresolved initialIncidentState := by
    simp [atMostOneUnresolved, initialIncidentState]
  refine ⟨hinit, hstep, ?_⟩
  intro ops
  suffices hgen : ∀ (s : ConfigIncidentState), atMostOneUnresolved s →
      atMostOneUnresolved (ops.foldl applyIncidentOp s) by
    exact hgen initialIncidentState hinit
  induction ops with
  | nil => intro s h; exact h
  | cons op ops ih =>
    intro s h
    exact ih (applyIncidentOp s op) (hstep s op h)

/-- Witness for claim C1: the step preserves the invariant at the initial
state and a threshold-reaching failure. -/
theorem claim_C1_witness :
    atMostOneUnresolved
      (applyIncidentOp initialIncidentState
        (IncidentOp.result 1 0 CheckStatus.failure)) :=
  claim_C1_at_most_one_unresolved.2.1 initialIncidentState
    (IncidentOp.result 1 0 CheckStatus.failure)
    (by simp [atMostOneUnresolved, initialIncidentState])

/-- A configuration with no active execution contributes zero to the
in-flight count. -/
theorem countP_active_zero_of_not_hasActive (s : SchedulerState) (cfg : Nat)
    (h : s.hasActive cfg = false) :
    s.active.countP (fun e => e.1 == cfg) = 0 :=
  countP_eq_zero_of_any_false _ _ h

/-- The atomic claim preserves the at-most-one-in-flight guarantee. -/
theorem claimExecution_preserves (cfg : Nat) (s : SchedulerState)
    (h : atMostOneInFlight s) : atMostOneInFlight (claimExecution cfg s) := by
  unfold claimExecution
  by_cases hact : s.hasActive cfg = true
  · simp only [hact, if_true]
    exact h
  · have hact' : s.hasActive cfg = false := by
      revert hact
      cases s.hasActive cfg <;> simp
    simp only [hact', Bool.false_eq_true, if_false]
    cases hf : s.entries.find? (fun e => e.configId == cfg) with
    | none => exact h
    | some e =>
      intro c
      show (((cfg, e.token + 1) :: s.active).countP fun e2 => e2.1 == c) ≤ 1
      rw [List.countP_cons]
      by_cases hc : c = cfg
      · subst hc
        have h0 := countP_active_zero_of_not_hasActive s c hact'
        simp [h0]
      · have hne : ((cfg, e.token + 1).1 == c) = false := by
          simp only [beq_eq_false_iff_ne, ne_eq]
          exact fun hcc => hc hcc.symm
        simp only [hne, if_false]
        simpa using h c

/-- Every scheduler operation preserves the at-most-one-in-flight
guarantee. -/
theorem applySchedulerOp_preserves (s : SchedulerState) (op : SchedulerOp)
    (h : atMostOneInFlight s) : atMostOneInFlight (applySchedulerOp s op) := by
  cases op with
  | tick now cfg =>
    show atMostOneInFlight (tickClaim now cfg s)
    unfold tickClaim
    cases hf : s.entries.find? (fun e => e.configId == cfg) with
    | none => exact h
    | some e =>
      by_cases hd : e.nextFire ≤ now
      · simp only [hd, if_true]
        exact claimExecution_preserves cfg s h
      · simp only [hd, if_false]
        exact h
  | manualRun cfg => exact claimExecution_preserves cfg s h
  | complete cfg token now interval =>
    intro c
    exact le_trans ((List.filter_sublist s.active).countP_le _) (h c)
  | upsert cfg now =>
    intro c
    show ((upsertEntry cfg now s).active.countP fun e => e.1 == c) ≤ 1
    unfold upsertEntry
    split <;> exact h c
  | remove cfg => exact h

/-- Claim C3: the empty scheduler state satisfies the at-most-one-in-flight
guarantee, every scheduler operation preserves it (so every state reachable by
any interleaving of ticks, manual triggers, completions, upserts and removals
satisfies it), and a runNow issued while an execution for the same
configuration is active is exactly a no-op. -/
theorem claim_C3_at_most_one_in_flight :
    atMostOneInFlight initialSchedulerState ∧
    (∀ (s : SchedulerState) (op : SchedulerOp),
      atMostOneInFlight s → atMostOneInFlight (applySchedulerOp s op)) ∧
    (∀ ops : List SchedulerOp, atMostOneInFlight (runSchedulerOps ops)) ∧
    (∀ (s : SchedulerState) (cfg : Nat),
      s.hasActive cfg = true → runNow cfg s = s) := by
  have hinit : atMostOneInFlight initialSchedulerState := by
    intro c
    simp [initialSchedulerState]
  refine ⟨hinit, applySchedulerOp_preserves, ?_, ?_⟩
  · intro ops
    suffices hgen : ∀ (s : SchedulerState), atMostOneInFlight s →
        atMostOneInFlight (ops.foldl applySchedulerOp s) by
      exact hgen initialSchedulerState hinit
    induction ops with
    | nil => intro s h; exact h
    | cons op ops ih =>
      intro s h
      exact ih (applySchedulerOp s op) (applySchedulerOp_preserves s op h)
  · intro s cfg h
    unfold runNow claimExecution
    simp [h]

/-- Witness for claim C3: a runNow for configuration 1 while (1, 1) is in
flight leaves the scheduler state unchanged. -/
theorem claim_C3_witness :
    runNow 1 (SchedulerState.mk [] [(1, 1)]) = SchedulerState.mk [] [(1, 1)] :=
  claim_C3_at_most_one_in_flight.2.2.2 (SchedulerState.mk [] [(1, 1)]) 1
    (by decide)

end HealthCheck
